import Mathlib

/-!
Shallow embedding of `src/RouteConfig.js` of the spark-server repository:
a declarative route-binding layer that scans controller methods, assembles a
per-route middleware chain, and dispatches requests with per-request controller
instances, a timeout race and error-to-JSON translation.
-/

namespace SparkServer

/-- JSON-like JavaScript values, as they appear in request bodies, path
parameters and response payloads. -/
inductive Val
  | str (s : String)
  | num (n : Int)
  | bool (b : Bool)
  | obj (fields : List (String × Val))
  | arr (elems : List Val)
  | null

/-! ## Object heap

The dispatcher distinguishes the shared scan-time controller instance from a
per-request clone by identity (`controllerInstance === controller`, line 113),
and `Object.create` produces a fresh object with a prototype link.  Object
identity is modelled with a heap: an object's address is its index in the
heap's list. -/

abbrev Addr := Nat

/-- A JavaScript object: its own properties and an optional prototype link. -/
structure Obj where
  own : List (String × Val)
  proto : Option Addr

/-- The object heap; the address of an object is its index in `objs`. -/
structure Heap where
  objs : List Obj

/-- Read the object stored at an address. -/
def Heap.get (h : Heap) (a : Addr) : Obj := h.objs.getD a ⟨[], none⟩

/-- Allocate a new object, returning the extended heap and the fresh address. -/
def Heap.alloc (h : Heap) (o : Obj) : Heap × Addr :=
  (⟨h.objs ++ [o]⟩, h.objs.length)

/-- Semantics of `Object.create(proto)` (line 117): a fresh object with no own
properties whose prototype is the given object. -/
def objectCreate (h : Heap) (protoA : Addr) : Heap × Addr :=
  h.alloc ⟨[], some protoA⟩

/-- Write one own property of an object, shadowing any prototype property of
the same name (a JavaScript assignment `o.k = v`). -/
def setProp (l : List (String × Val)) (k : String) (v : Val) :
    List (String × Val) :=
  (k, v) :: l.filter (fun p => p.1 != k)

/-- Own-property assignment on the object at address `a`. -/
def Heap.setOwn (h : Heap) (a : Addr) (k : String) (v : Val) : Heap :=
  ⟨h.objs.set a ⟨setProp (h.get a).own k v, (h.get a).proto⟩⟩

/-- Lines 109-118 of the dispatcher: the instance the container resolved at
dispatch time is cloned via `Object.create` exactly when it is identical to the
shared scan-time instance; otherwise it is used directly. -/
def resolveControllerInstance (h : Heap) (resolved sharedA : Addr) :
    Heap × Addr :=
  if resolved = sharedA then objectCreate h sharedA else (h, resolved)

/-- Lines 120-122 of the dispatcher: attach the request-scoped fields
`request`, `response` and `user` to the (possibly cloned) instance. -/
def attachRequestScoped (h : Heap) (inst : Addr) (req resp usr : Val) : Heap :=
  ((h.setOwn inst "request" req).setOwn inst "response" resp).setOwn
    inst "user" usr

/-- Lines 109-122 combined: resolve (cloning a singleton) and attach the
request-scoped fields, returning the updated heap and the instance used as the
method's receiver. -/
def prepareInstance (h : Heap) (resolved sharedA : Addr) (req resp usr : Val) :
    Heap × Addr :=
  let ri := resolveControllerInstance h resolved sharedA
  (attachRequestScoped ri.1 ri.2 req resp usr, ri.2)

/-- Sequential processing of a list of requests against one controller whose
container resolution is singleton (each dispatch resolves the shared scan-time
instance). -/
def processRequests (sharedA : Addr) : Heap → List (Val × Val × Val) → Heap
  | h, [] => h
  | h, (r, s, u) :: rest =>
      processRequests sharedA (prepareInstance h sharedA sharedA r s u).1 rest

/-! ### Heap lemmas -/

theorem list_getD_concat (l : List α) (a d : α) :
    (l ++ [a]).getD l.length d = a := by
  induction l with
  | nil => rfl
  | cons x xs ih => simp only [List.cons_append, List.length_cons,
      List.getD_cons_succ]; exact ih

theorem list_getD_append_left (l l2 : List α) (n : Nat) (d : α)
    (hn : n < l.length) : (l ++ l2).getD n d = l.getD n d := by
  induction l generalizing n with
  | nil => exact absurd hn (Nat.not_lt_zero n)
  | cons x xs ih =>
      cases n with
      | zero => rfl
      | succ m => simpa using ih m (Nat.lt_of_succ_lt_succ hn)

theorem list_set_concat (l : List α) (a b : α) :
    (l ++ [a]).set l.length b = l ++ [b] := by
  induction l with
  | nil => rfl
  | cons x xs ih => simp only [List.cons_append, List.length_cons,
      List.set_cons_succ]; exact congrArg (x :: ·) ih

/-- Writing an own property of the freshly appended object rewrites just that
object. -/
theorem setOwn_concat (h : Heap) (o : Obj) (k : String) (v : Val) :
    Heap.setOwn ⟨h.objs ++ [o]⟩ h.objs.length k v
      = ⟨h.objs ++ [⟨setProp o.own k v, o.proto⟩]⟩ := by
  have hget : Heap.get ⟨h.objs ++ [o]⟩ h.objs.length = o :=
    list_getD_concat h.objs o _
  simp [Heap.setOwn, hget, list_set_concat]

/-- Closed form of a singleton-resolution dispatch: the heap grows by one fresh
per-request object carrying the request-scoped fields and a prototype link to
the shared instance, and the fresh address is returned. -/
theorem prepareInstance_singleton (h : Heap) (sharedA : Addr)
    (req resp usr : Val) :
    prepareInstance h sharedA sharedA req resp usr
      = (⟨h.objs ++ [⟨[("user", usr), ("response", resp), ("request", req)],
          some sharedA⟩]⟩, h.objs.length) := by
  have hown : setProp (setProp (setProp [] "request" req) "response" resp)
      "user" usr
      = [("user", usr), ("response", resp), ("request", req)] := rfl
  simp only [prepareInstance, resolveControllerInstance, if_pos rfl, if_true,
    objectCreate, Heap.alloc, attachRequestScoped]
  rw [setOwn_concat, setOwn_concat, setOwn_concat, hown]

/-- Pre-existing objects are untouched by a singleton-resolution dispatch. -/
theorem prepareInstance_singleton_preserves (h : Heap) (sharedA a : Addr)
    (req resp usr : Val) (ha : a < h.objs.length) :
    (prepareInstance h sharedA sharedA req resp usr).1.get a = h.get a := by
  rw [prepareInstance_singleton]
  exact list_getD_append_left h.objs _ a _ ha

theorem processRequests_preserves (sharedA a : Addr)
    (rs : List (Val × Val × Val)) :
    ∀ h : Heap, a < h.objs.length →
      (processRequests sharedA h rs).get a = h.get a := by
  induction rs with
  | nil => intro h _; rfl
  | cons x rest ih =>
      intro h ha
      obtain ⟨r, s, u⟩ := x
      have hlen : a < (prepareInstance h sharedA sharedA r s u).1.objs.length := by
        rw [prepareInstance_singleton]
        simpa using Nat.lt_succ_of_lt ha
      calc (processRequests sharedA h ((r, s, u) :: rest)).get a
          = (prepareInstance h sharedA sharedA r s u).1.get a :=
            ih _ hlen
        _ = h.get a := prepareInstance_singleton_preserves h sharedA a r s u ha

/-! ## Path-parameter extraction and call arguments (lines 103-107, 124-135) -/

/-- Word characters of the regular expression class used on line 103
(ASCII letters, digits and underscore, as in JavaScript). -/
def isWordChar (c : Char) : Bool := c.isAlphanum || c = '_'

theorem dropWhile_length_le (p : α → Bool) (l : List α) :
    (l.dropWhile p).length ≤ l.length := by
  induction l with
  | nil => exact Nat.le_refl _
  | cons x xs ih =>
      rw [List.dropWhile_cons]
      split
      · exact Nat.le_succ_of_le ih
      · exact Nat.le_refl _

/-- Matches of the global regular expression of line 103 — a colon followed by
a maximal (possibly empty) run of word characters — scanned left to right,
with the leading colon removed as the `replace` call on line 104 does.  The
fuel argument only bounds the recursion; every call from `routeParamNames`
supplies enough fuel (each step consumes at least one character), as
`paramNamesAux_fuel` below shows. -/
def paramNamesAux : Nat → List Char → List String
  | _, [] => []
  | 0, _ :: _ => []
  | fuel + 1, c :: rest =>
      if c = ':' then
        String.mk (rest.takeWhile isWordChar)
          :: paramNamesAux fuel (rest.dropWhile isWordChar)
      else paramNamesAux fuel rest

/-- The scan is fuel-insensitive once the fuel covers the character count. -/
theorem paramNamesAux_fuel (fuel fuel2 : Nat) (l : List Char)
    (h1 : l.length ≤ fuel) (h2 : l.length ≤ fuel2) :
    paramNamesAux fuel l = paramNamesAux fuel2 l := by
  induction fuel generalizing fuel2 l with
  | zero =>
      cases l with
      | nil => cases fuel2 <;> rfl
      | cons c rest => exact absurd h1 (by simp)
  | succ f ih =>
      cases l with
      | nil => cases fuel2 <;> rfl
      | cons c rest =>
          cases fuel2 with
          | zero => exact absurd h2 (by simp)
          | succ f2 =>
              simp only [paramNamesAux]
              have hr : rest.length ≤ f := Nat.le_of_succ_le_succ (by simpa using h1)
              have hr2 : rest.length ≤ f2 := Nat.le_of_succ_le_succ (by simpa using h2)
              by_cases hc : c = ':'
              · simp only [hc, if_pos rfl]
                exact congrArg _ (ih _ _
                  (Nat.le_trans (dropWhile_length_le _ _) hr)
                  (Nat.le_trans (dropWhile_length_le _ _) hr2))
              · simp only [if_neg hc]
                exact ih _ _ hr hr2

/-- Lines 103-105: the named parameters of a route pattern, in the order they
appear. -/
def routeParamNames (route : String) : List String :=
  paramNamesAux route.data.length route.data

/-- Lines 124-128: rest-destructuring of `request.body` that drops the
`access_token` own property and keeps every other field unchanged. -/
def stripAccessToken (b : List (String × Val)) : List (String × Val) :=
  b.filter (fun p => p.1 != "access_token")

/-- Lines 106-107 and 131-135: the argument list passed to the controller
method — the resolved value of each named path parameter in pattern order,
then the filtered request body. -/
def callArguments (route : String) (params : String → Val)
    (b : List (String × Val)) : List Val :=
  (routeParamNames route).map params ++ [Val.obj (stripAccessToken b)]

/-! ## Controller results, errors and the error normalizer -/

/-- Response contract of a controller method: a status and a data payload
(lines 150-154 read exactly these two fields). -/
structure ControllerResult where
  status : Nat
  data : Val

/-- An arbitrary thrown or rejected JavaScript error value: it may carry a
status code of its own, and it has a message. -/
structure JsError where
  status : Option Nat
  message : String
deriving DecidableEq

/-- Normalized HTTP error produced from any thrown value. -/
structure HttpError where
  status : Nat
  message : String

/-- Modelled from the spec: the error normalizer `src/lib/HttpError` (spec
section 4.4) is not among the provided sources.  Per the spec it preserves a
status the error already carries and otherwise defaults to the internal-error
status 500. -/
def HttpError.ofError (e : JsError) : HttpError :=
  ⟨e.status.getD 500, e.message⟩

/-- Message of the error thrown by `nullthrows` on null or undefined. -/
def nullthrowsMessage : String := "Got unexpected null or undefined"

/-- Error synthesized by the timeout timer on line 144. -/
def timeoutError : JsError := ⟨none, "timeout"⟩

/-- TypeError raised by reading `.then` (line 137) when the method returned
null or undefined. -/
def thenAccessError : JsError := ⟨none, "Cannot read properties of null"⟩

/-- TypeError raised by the rest-destructuring of line 125-128 when
`request.body` is undefined. -/
def destructureError : JsError :=
  ⟨none, "Cannot destructure property of undefined"⟩

/-! ## Deferred computations and the race of line 138 -/

/-- How a deferred computation settles: fulfilled with a value (possibly a
null/undefined one, modelled as `none`) or rejected with an error. -/
inductive Settle
  | resolve (r : Option ControllerResult)
  | reject (e : JsError)

/-- A deferred computation (a thenable): when and how it settles, `none`
meaning it never settles.  Settlement time 0 means the value is a promise that
is already settled when `Promise.race` is invoked. -/
structure Deferred where
  settle : Option (Nat × Settle)

/-- Outcome of the race on lines 138-149. -/
inductive RaceOutcome
  | fulfilled (v : Option ControllerResult)
  | rejected (e : JsError)

/-- Semantics of `Promise.race` as invoked on lines 138-149.  The first
operand is the method's deferred computation; the second is the timeout
promise when `serverSentEvents` is false and the literal `null` otherwise.  A
non-promise operand counts as a promise already fulfilled with that value, so
with `serverSentEvents` true the race fulfills with `null` unless the first
operand is already settled (operand order wins the tie at time 0).  With
`serverSentEvents` false the timer rejects with the timeout error once the
configured duration elapses; a deferred already settled at race time beats
the freshly armed timer. -/
def promiseRace (serverSentEvents : Bool) (apiTimeout : Nat) (d : Deferred) :
    RaceOutcome :=
  if serverSentEvents then
    match d.settle with
    | some (0, Settle.resolve v) => .fulfilled v
    | some (0, Settle.reject e) => .rejected e
    | _ => .fulfilled none
  else
    match d.settle with
    | some (t, s) =>
        if t = 0 ∨ t < apiTimeout then
          match s with
          | Settle.resolve v => .fulfilled v
          | Settle.reject e => .rejected e
        else .rejected timeoutError
    | none => .rejected timeoutError

/-! ## The try/catch block (lines 130-162) -/

/-- Outcome of invoking the controller method on lines 131-135: a synchronous
throw, a plain (non-thenable) return value — `none` standing for a null or
undefined return — or a thenable. -/
inductive CallOutcome
  | syncThrow (e : JsError)
  | sync (r : Option ControllerResult)
  | thenable (d : Deferred)

/-- A JSON response written by the dispatcher: `response.status(s).json(b)`. -/
structure JsonResponse where
  status : Nat
  body : Val

/-- Body written by the catch branch on lines 158-161. -/
def errorBody (message : String) : Val :=
  .obj [("error", .str message), ("ok", .bool false)]

/-- Lines 156-161: normalize the caught error and respond with its status and
the error JSON body. -/
def catchWith (e : JsError) : JsonResponse :=
  ⟨(HttpError.ofError e).status, errorBody (HttpError.ofError e).message⟩

/-- Lines 130-162: the try/catch around the method invocation.  A proper
`(status, data)` result is written as the response; a null race winner makes
`nullthrows` throw; every throw or rejection lands in the catch branch. -/
def tryBlock (serverSentEvents : Bool) (apiTimeout : Nat) :
    CallOutcome → JsonResponse
  | .syncThrow e => catchWith e
  | .sync none => catchWith thenAccessError
  | .sync (some r) => ⟨r.status, r.data⟩
  | .thenable d =>
      match promiseRace serverSentEvents apiTimeout d with
      | .rejected e => catchWith e
      | .fulfilled none => catchWith ⟨none, nullthrowsMessage⟩
      | .fulfilled (some r) => ⟨r.status, r.data⟩

/-! ## The whole dispatcher (lines 102-162) -/

/-- What the async handler does with one request: either it writes a response,
or an exception escapes it (the handler's promise rejects). -/
inductive DispatchResult
  | responded (r : JsonResponse)
  | escaped (e : JsError)

/-- Whether the dispatcher wrote a response. -/
def DispatchResult.isResponded : DispatchResult → Bool
  | .responded _ => true
  | .escaped _ => false

/-- The dispatcher body, lines 102-162.  Parameter extraction (103-107),
container resolution (109), cloning and field attachment (113-122) and the
body destructuring (125-128) all happen before the `try` of line 130, so a
throw there — a failing container resolution, or destructuring an undefined
`request.body` — escapes the handler.  Everything from the method invocation
on is inside the try/catch. -/
def dispatcher (h : Heap) (sharedA : Addr)
    (resolveOutcome : Except JsError Addr) (route : String)
    (params : String → Val) (reqBody : Option (List (String × Val)))
    (req resp usr : Val) (method : Addr → List Val → CallOutcome)
    (serverSentEvents : Bool) (apiTimeout : Nat) : Heap × DispatchResult :=
  match resolveOutcome with
  | .error e => (h, .escaped e)
  | .ok resolved =>
      let prepared := prepareInstance h resolved sharedA req resp usr
      match reqBody with
      | none => (prepared.1, .escaped destructureError)
      | some b =>
          (prepared.1, .responded (tryBlock serverSentEvents apiTimeout
            (method prepared.2 (callArguments route params b))))

/-- Lookup of a field of a JSON object value. -/
def Val.objLookup : Val → String → Option Val
  | .obj l, k => l.lookup k
  | _, _ => none

/-! ## Middleware chain (lines 19-26, 96-102) -/

/-- Outcome of one middleware stage: pass control to the next stage with a
possibly updated request state, or end the request with a response of its
own. -/
inductive MWStep (σ ρ : Type)
  | next (s : σ)
  | halt (r : ρ)

/-- Lines 19-26: `maybe` wraps a middleware so that it runs when the condition
holds and otherwise calls straight through to the next stage. -/
def maybe (middleware : σ → MWStep σ ρ) (condition : Bool) :
    σ → MWStep σ ρ :=
  fun s => if condition then middleware s else .next s

/-- Run a chain of middleware stages in order, stopping at the first stage
that ends the request. -/
def runChain : List (σ → MWStep σ ρ) → σ → MWStep σ ρ
  | [], s => .next s
  | m :: ms, s =>
      match m s with
      | .next s2 => runChain ms s2
      | .halt r => .halt r

/-- Lines 96-102: the handlers registered for one route, in order — the
conditionally active auth, server-sent-events and upload stages, the always
active user-injection stage, and the terminal dispatcher. -/
def routeHandlerChain (authenticate sseMiddleware injectUser uploadStage
    terminal : σ → MWStep σ ρ)
    (anonymous serverSentEvents uploadsTruthy : Bool) :
    List (σ → MWStep σ ρ) :=
  [maybe authenticate (!anonymous),
   maybe sseMiddleware serverSentEvents,
   injectUser,
   maybe uploadStage uploadsTruthy,
   terminal]

/-! ## Router and the catch-all 404 (lines 167-169) -/

/-- One registered binding: an HTTP verb and a path pattern. -/
structure Binding where
  verb : String
  pattern : String

/-- One pattern segment against one path segment: a `:name` segment matches
any nonempty segment, a literal segment matches exactly. -/
def segMatches (patSeg pathSeg : String) : Bool :=
  if patSeg.startsWith ":" then pathSeg != "" else patSeg == pathSeg

/-- Route pattern matching: patterns and paths are split on `/` and matched
segmentwise. -/
def pathMatches (pattern path : String) : Bool :=
  let ps := pattern.splitOn "/"
  let ss := path.splitOn "/"
  ps.length == ss.length && (List.zip ps ss).all (fun q => segMatches q.1 q.2)

/-- Whether a binding handles a request's verb and path. -/
def requestMatches (b : Binding) (verb path : String) : Bool :=
  (b.verb == verb) && pathMatches b.pattern path

/-- A raw response as the framework sends it: a status and a text body. -/
structure RawResponse where
  status : Nat
  body : String
deriving DecidableEq

/-- The HTTP status message texts the framework registers (only the code the
source uses matters; others fall back to the number's decimal text). -/
def statusMessage (code : Nat) : String :=
  if code = 404 then "Not Found" else toString code

/-- Semantics of `response.sendStatus(code)` (line 168): set the status and
send the registered status message as a plain-text body. -/
def sendStatus (code : Nat) : RawResponse :=
  ⟨code, statusMessage code⟩

/-- The router with the catch-all of lines 167-169: the first registered
binding matching the request handles it; a request matching no binding falls
through to `app.all` and gets `sendStatus 404`. -/
def appRespond (bindings : List Binding) (handle : Binding → RawResponse)
    (verb path : String) : RawResponse :=
  match bindings.find? (fun b => requestMatches b verb path) with
  | some b => handle b
  | none => sendStatus 404

/-! ## Upload middleware factory (lines 70-75, 93-101) -/

/-- A JavaScript optional value as Flow's `?Array` type: undefined and null
are distinct, and only `undefined` triggers a default parameter. -/
inductive JsOpt (α : Type)
  | undefined
  | null
  | val (a : α)

/-- One entry of the upload spec: a field name and its maximum count. -/
structure UploadField where
  name : String
  maxCount : Nat
deriving DecidableEq

/-- The two multer configurations the factory can produce. -/
inductive UploadMW
  | fields (spec : List UploadField)
  | any
deriving DecidableEq

/-- JavaScript truthiness of the `allowedUploads` value as used for the
condition on line 101: undefined and null are falsy, any array (even empty)
is truthy. -/
def jsTruthy : JsOpt (List UploadField) → Bool
  | .undefined => false
  | .null => false
  | .val _ => true

/-- Lines 70-75: the upload middleware factory.  The default parameter `[]`
applies only when the argument is undefined; `nullthrows` then throws on null,
and otherwise a nonempty spec selects `multer().fields`, an empty one
`multer().any()`. -/
def filesMiddleware (allowedUploads : JsOpt (List UploadField)) :
    Except String UploadMW :=
  let arg : JsOpt (List UploadField) :=
    match allowedUploads with
    | .undefined => .val []
    | x => x
  match arg with
  | .val l => .ok (if l.length ≠ 0 then .fields l else .any)
  | _ => .error nullthrowsMessage

/-- Lines 96-101: registering a route evaluates every handler argument
eagerly, so the upload middleware factory runs at startup for every routable
method, before the `maybe` wrapper's condition is ever consulted.  The bound
stage is the produced middleware together with its activation condition. -/
def bindUploadStage (allowedUploads : JsOpt (List UploadField)) :
    Except String (UploadMW × Bool) :=
  match filesMiddleware allowedUploads with
  | .error msg => .error msg
  | .ok mw => .ok (mw, jsTruthy allowedUploads)

/-- Lines 93-101 restricted to the upload stage: a method without an
`httpVerb` annotation is skipped before any middleware argument is evaluated;
a routable one has its upload stage bound eagerly. -/
def scanMethodUploadStage (httpVerb : Option String)
    (allowedUploads : JsOpt (List UploadField)) :
    Except String (Option (UploadMW × Bool)) :=
  match httpVerb with
  | none => .ok none
  | some _ =>
      match bindUploadStage allowedUploads with
      | .error msg => .error msg
      | .ok stage => .ok (some stage)

/-! ## Claim theorems -/

theorem heap_concat_get_last (h : Heap) (o : Obj) :
    (⟨h.objs ++ [o]⟩ : Heap).get h.objs.length = o :=
  list_getD_concat h.objs o _

theorem heap_concat_get_old (h : Heap) (o : Obj) (a : Addr)
    (ha : a < h.objs.length) : (⟨h.objs ++ [o]⟩ : Heap).get a = h.get a :=
  list_getD_append_left h.objs [o] a _ ha

/-- C1: for a controller whose container resolution is singleton (the address
resolved at dispatch time equals the shared scan-time address), the dispatcher
attaches the request-scoped fields `request`, `response` and `user` to a fresh
per-request object whose prototype is the shared instance; two successive
dispatches produce distinct per-request objects and neither dispatch disturbs
the other's request-scoped fields; and when the container supplies a distinct
(fresh) instance, that instance is used directly without cloning. -/
theorem claim_c1_singleton_clone_isolation (h : Heap) (sharedA : Addr)
    (req resp usr req2 resp2 usr2 : Val) (hs : sharedA < h.objs.length) :
    (prepareInstance h sharedA sharedA req resp usr).2 ≠ sharedA
    ∧ ((prepareInstance h sharedA sharedA req resp usr).1.get
        (prepareInstance h sharedA sharedA req resp usr).2).proto
        = some sharedA
    ∧ ((prepareInstance h sharedA sharedA req resp usr).1.get
        (prepareInstance h sharedA sharedA req resp usr).2).own.lookup
        "request" = some req
    ∧ ((prepareInstance h sharedA sharedA req resp usr).1.get
        (prepareInstance h sharedA sharedA req resp usr).2).own.lookup
        "response" = some resp
    ∧ ((prepareInstance h sharedA sharedA req resp usr).1.get
        (prepareInstance h sharedA sharedA req resp usr).2).own.lookup
        "user" = some usr
    ∧ (prepareInstance (prepareInstance h sharedA sharedA req resp usr).1
        sharedA sharedA req2 resp2 usr2).2
        ≠ (prepareInstance h sharedA sharedA req resp usr).2
    ∧ ((prepareInstance (prepareInstance h sharedA sharedA req resp usr).1
        sharedA sharedA req2 resp2 usr2).1.get
        (prepareInstance h sharedA sharedA req resp usr).2).own.lookup
        "request" = some req
    ∧ ((prepareInstance (prepareInstance h sharedA sharedA req resp usr).1
        sharedA sharedA req2 resp2 usr2).1.get
        (prepareInstance h sharedA sharedA req resp usr).2).own.lookup
        "user" = some usr
    ∧ ((prepareInstance (prepareInstance h sharedA sharedA req resp usr).1
        sharedA sharedA req2 resp2 usr2).1.get
        (prepareInstance (prepareInstance h sharedA sharedA req resp usr).1
          sharedA sharedA req2 resp2 usr2).2).own.lookup
        "request" = some req2
    ∧ ∀ resolved : Addr, resolved ≠ sharedA →
        resolveControllerInstance h resolved sharedA = (h, resolved)
        ∧ (prepareInstance h resolved sharedA req resp usr).2 = resolved := by
  have e1 := prepareInstance_singleton h sharedA req resp usr
  have e2 := prepareInstance_singleton
    (⟨h.objs ++ [⟨[("user", usr), ("response", resp), ("request", req)],
      some sharedA⟩]⟩ : Heap) sharedA req2 resp2 usr2
  have g1 := heap_concat_get_last h
    ⟨[("user", usr), ("response", resp), ("request", req)], some sharedA⟩
  have g2 := heap_concat_get_last
    (⟨h.objs ++ [⟨[("user", usr), ("response", resp), ("request", req)],
      some sharedA⟩]⟩ : Heap)
    ⟨[("user", usr2), ("response", resp2), ("request", req2)], some sharedA⟩
  have hlt : h.objs.length
      < (⟨h.objs ++ [⟨[("user", usr), ("response", resp), ("request", req)],
        some sharedA⟩]⟩ : Heap).objs.length := by
    simp
  have g3 := heap_concat_get_old
    (⟨h.objs ++ [⟨[("user", usr), ("response", resp), ("request", req)],
      some sharedA⟩]⟩ : Heap)
    ⟨[("user", usr2), ("response", resp2), ("request", req2)], some sharedA⟩
    h.objs.length hlt
  refine ⟨?_, ?_, ?_, ?_, ?_, ?_, ?_, ?_, ?_, ?_⟩
  · rw [e1]; exact fun hEq => absurd (hEq ▸ hs) (Nat.lt_irrefl _)
  · rw [e1]; rw [show ((⟨h.objs ++ [⟨[("user", usr), ("response", resp),
      ("request", req)], some sharedA⟩]⟩ : Heap), h.objs.length).1.get
      h.objs.length = _ from g1]
  · rw [e1]; rw [show ((⟨h.objs ++ [⟨[("user", usr), ("response", resp),
      ("request", req)], some sharedA⟩]⟩ : Heap), h.objs.length).1.get
      h.objs.length = _ from g1]
    rfl
  · rw [e1]; rw [show ((⟨h.objs ++ [⟨[("user", usr), ("response", resp),
      ("request", req)], some sharedA⟩]⟩ : Heap), h.objs.length).1.get
      h.objs.length = _ from g1]
    rfl
  · rw [e1]; rw [show ((⟨h.objs ++ [⟨[("user", usr), ("response", resp),
      ("request", req)], some sharedA⟩]⟩ : Heap), h.objs.length).1.get
      h.objs.length = _ from g1]
    rfl
  · rw [e1, e2]; simp
  · rw [e1, e2]
    rw [show ((⟨(⟨h.objs ++ [⟨[("user", usr), ("response", resp),
      ("request", req)], some sharedA⟩]⟩ : Heap).objs
      ++ [⟨[("user", usr2), ("response", resp2), ("request", req2)],
        some sharedA⟩]⟩ : Heap),
      (⟨h.objs ++ [⟨[("user", usr), ("response", resp), ("request", req)],
        some sharedA⟩]⟩ : Heap).objs.length).1.get h.objs.length
      = _ from g3]
    rw [show (⟨h.objs ++ [⟨[("user", usr), ("response", resp),
      ("request", req)], some sharedA⟩]⟩ : Heap).get h.objs.length
      = _ from g1]
    rfl
  · rw [e1, e2]
    rw [show ((⟨(⟨h.objs ++ [⟨[("user", usr), ("response", resp),
      ("request", req)], some sharedA⟩]⟩ : Heap).objs
      ++ [⟨[("user", usr2), ("response", resp2), ("request", req2)],
        some sharedA⟩]⟩ : Heap),
      (⟨h.objs ++ [⟨[("user", usr), ("response", resp), ("request", req)],
        some sharedA⟩]⟩ : Heap).objs.length).1.get h.objs.length
      = _ from g3]
    rw [show (⟨h.objs ++ [⟨[("user", usr), ("response", resp),
      ("request", req)], some sharedA⟩]⟩ : Heap).get h.objs.length
      = _ from g1]
    rfl
  · rw [e1, e2]
    rw [show ((⟨(⟨h.objs ++ [⟨[("user", usr), ("response", resp),
      ("request", req)], some sharedA⟩]⟩ : Heap).objs
      ++ [⟨[("user", usr2), ("response", resp2), ("request", req2)],
        some sharedA⟩]⟩ : Heap),
      (⟨h.objs ++ [⟨[("user", usr), ("response", resp), ("request", req)],
        some sharedA⟩]⟩ : Heap).objs.length).1.get
      (⟨h.objs ++ [⟨[("user", usr), ("response", resp), ("request", req)],
        some sharedA⟩]⟩ : Heap).objs.length = _ from g2]
    rfl
  · intro resolved hne
    constructor
    · simp [resolveControllerInstance, hne]
    · simp [prepareInstance, resolveControllerInstance, hne]

theorem claim_c1_singleton_clone_isolation_witness :
    0 < (⟨[⟨[], none⟩]⟩ : Heap).objs.length
    ∧ ((prepareInstance ⟨[⟨[], none⟩]⟩ 0 0 (.str "r1") (.str "s1")
          (.str "u1")).2 ≠ 0
      ∧ ((prepareInstance ⟨[⟨[], none⟩]⟩ 0 0 (.str "r1") (.str "s1")
            (.str "u1")).1.get
          (prepareInstance ⟨[⟨[], none⟩]⟩ 0 0 (.str "r1") (.str "s1")
            (.str "u1")).2).proto = some 0
      ∧ ((prepareInstance ⟨[⟨[], none⟩]⟩ 0 0 (.str "r1") (.str "s1")
            (.str "u1")).1.get
          (prepareInstance ⟨[⟨[], none⟩]⟩ 0 0 (.str "r1") (.str "s1")
            (.str "u1")).2).own.lookup "request" = some (.str "r1")
      ∧ ((prepareInstance ⟨[⟨[], none⟩]⟩ 0 0 (.str "r1") (.str "s1")
            (.str "u1")).1.get
          (prepareInstance ⟨[⟨[], none⟩]⟩ 0 0 (.str "r1") (.str "s1")
            (.str "u1")).2).own.lookup "response" = some (.str "s1")
      ∧ ((prepareInstance ⟨[⟨[], none⟩]⟩ 0 0 (.str "r1") (.str "s1")
            (.str "u1")).1.get
          (prepareInstance ⟨[⟨[], none⟩]⟩ 0 0 (.str "r1") (.str "s1")
            (.str "u1")).2).own.lookup "user" = some (.str "u1")
      ∧ (prepareInstance (prepareInstance ⟨[⟨[], none⟩]⟩ 0 0 (.str "r1")
            (.str "s1") (.str "u1")).1 0 0 (.str "r2") (.str "s2")
            (.str "u2")).2
          ≠ (prepareInstance ⟨[⟨[], none⟩]⟩ 0 0 (.str "r1") (.str "s1")
            (.str "u1")).2
      ∧ ((prepareInstance (prepareInstance ⟨[⟨[], none⟩]⟩ 0 0 (.str "r1")
            (.str "s1") (.str "u1")).1 0 0 (.str "r2") (.str "s2")
            (.str "u2")).1.get
          (prepareInstance ⟨[⟨[], none⟩]⟩ 0 0 (.str "r1") (.str "s1")
            (.str "u1")).2).own.lookup "request" = some (.str "r1")
      ∧ ((prepareInstance (prepareInstance ⟨[⟨[], none⟩]⟩ 0 0 (.str "r1")
            (.str "s1") (.str "u1")).1 0 0 (.str "r2") (.str "s2")
            (.str "u2")).1.get
          (prepareInstance ⟨[⟨[], none⟩]⟩ 0 0 (.str "r1") (.str "s1")
            (.str "u1")).2).own.lookup "user" = some (.str "u1")
      ∧ ((prepareInstance (prepareInstance ⟨[⟨[], none⟩]⟩ 0 0 (.str "r1")
            (.str "s1") (.str "u1")).1 0 0 (.str "r2") (.str "s2")
            (.str "u2")).1.get
          (prepareInstance (prepareInstance ⟨[⟨[], none⟩]⟩ 0 0 (.str "r1")
            (.str "s1") (.str "u1")).1 0 0 (.str "r2") (.str "s2")
            (.str "u2")).2).own.lookup "request" = some (.str "r2")
      ∧ ∀ resolved : Addr, resolved ≠ 0 →
          resolveControllerInstance ⟨[⟨[], none⟩]⟩ resolved 0
            = (⟨[⟨[], none⟩]⟩, resolved)
          ∧ (prepareInstance ⟨[⟨[], none⟩]⟩ resolved 0 (.str "r1") (.str "s1")
              (.str "u1")).2 = resolved) :=
  ⟨by decide, claim_c1_singleton_clone_isolation ⟨[⟨[], none⟩]⟩ 0
    (.str "r1") (.str "s1") (.str "u1") (.str "r2") (.str "s2") (.str "u2")
    (by decide)⟩

/-- C9: the shared controller instance resolved at scan time is never mutated
by any dispatch — across any sequence of singleton-resolution requests, the
object stored at the shared address (its own properties included) is exactly
what it was before, and likewise for every other pre-existing object. -/
theorem claim_c9_shared_instance_unmutated (h : Heap) (sharedA : Addr)
    (rs : List (Val × Val × Val)) (hs : sharedA < h.objs.length) :
    (processRequests sharedA h rs).get sharedA = h.get sharedA
    ∧ ((processRequests sharedA h rs).get sharedA).own
        = (h.get sharedA).own
    ∧ ∀ a : Addr, a < h.objs.length →
        (processRequests sharedA h rs).get a = h.get a := by
  refine ⟨processRequests_preserves sharedA sharedA rs h hs, ?_, ?_⟩
  · rw [processRequests_preserves sharedA sharedA rs h hs]
  · exact fun a ha => processRequests_preserves sharedA a rs h ha

theorem claim_c9_shared_instance_unmutated_witness :
    0 < (⟨[⟨[("x", Val.num 3)], none⟩]⟩ : Heap).objs.length
    ∧ ((processRequests 0 ⟨[⟨[("x", Val.num 3)], none⟩]⟩
          [(.str "r1", .str "s1", .str "u1"), (.str "r2", .str "s2",
            .str "u2")]).get 0
        = (⟨[⟨[("x", Val.num 3)], none⟩]⟩ : Heap).get 0
      ∧ ((processRequests 0 ⟨[⟨[("x", Val.num 3)], none⟩]⟩
          [(.str "r1", .str "s1", .str "u1"), (.str "r2", .str "s2",
            .str "u2")]).get 0).own
        = ((⟨[⟨[("x", Val.num 3)], none⟩]⟩ : Heap).get 0).own
      ∧ ∀ a : Addr, a < (⟨[⟨[("x", Val.num 3)], none⟩]⟩ : Heap).objs.length →
          (processRequests 0 ⟨[⟨[("x", Val.num 3)], none⟩]⟩
            [(.str "r1", .str "s1", .str "u1"), (.str "r2", .str "s2",
              .str "u2")]).get a
          = (⟨[⟨[("x", Val.num 3)], none⟩]⟩ : Heap).get a) :=
  ⟨by decide, claim_c9_shared_instance_unmutated ⟨[⟨[("x", Val.num 3)], none⟩]⟩
    0 [(.str "r1", .str "s1", .str "u1"), (.str "r2", .str "s2", .str "u2")]
    (by decide)⟩

/-- Status the dispatcher sent, when it responded at all. -/
def DispatchResult.statusSent : DispatchResult → Option Nat
  | .responded r => some r.status
  | .escaped _ => none

/-- C2 (amended): once the pre-try steps succeed (the container resolution
returns an instance and `request.body` is present), the dispatcher always
writes a response, and every failure inside the try block — a synchronous
throw or a rejected race (rejected deferred computation or timeout) — is
caught and answered with the normalizer's status and the JSON error body;
an exception escapes the dispatcher only from the pre-try steps, namely a
throwing container resolution or an absent `request.body`. -/
theorem claim_c2_catch_scope (h : Heap) (sharedA a : Addr) (route : String)
    (params : String → Val) (b : List (String × Val)) (req resp usr : Val)
    (method : Addr → List Val → CallOutcome) (sse : Bool) (apiTimeout : Nat) :
    ((dispatcher h sharedA (.ok a) route params (some b) req resp usr method
        sse apiTimeout).2.isResponded = true)
    ∧ (∀ e, method (prepareInstance h a sharedA req resp usr).2
          (callArguments route params b) = .syncThrow e →
        (dispatcher h sharedA (.ok a) route params (some b) req resp usr
            method sse apiTimeout).2
          = .responded ⟨(HttpError.ofError e).status,
              errorBody (HttpError.ofError e).message⟩)
    ∧ (∀ d e, method (prepareInstance h a sharedA req resp usr).2
          (callArguments route params b) = .thenable d →
        promiseRace sse apiTimeout d = .rejected e →
        (dispatcher h sharedA (.ok a) route params (some b) req resp usr
            method sse apiTimeout).2
          = .responded ⟨(HttpError.ofError e).status,
              errorBody (HttpError.ofError e).message⟩)
    ∧ (∀ (ro : Except JsError Addr) (rb : Option (List (String × Val)))
          (e : JsError),
        (dispatcher h sharedA ro route params rb req resp usr method sse
            apiTimeout).2 = .escaped e →
        (∃ e2, ro = .error e2) ∨ rb = none) := by
  refine ⟨rfl, ?_, ?_, ?_⟩
  · intro e hm
    simp [dispatcher, tryBlock, hm, catchWith]
  · intro d e hm hr
    simp [dispatcher, tryBlock, hm, hr, catchWith]
  · intro ro rb e hesc
    match ro, rb with
    | .error e2, _ => exact Or.inl ⟨e2, rfl⟩
    | .ok a2, none => exact Or.inr rfl
    | .ok a2, some b2 => exact absurd hesc (by simp [dispatcher])

theorem claim_c2_catch_scope_witness :
    ((fun (_ : Addr) (_ : List Val) =>
        CallOutcome.syncThrow ⟨some 400, "No key provided"⟩) =
      (fun (_ : Addr) (_ : List Val) =>
        CallOutcome.syncThrow ⟨some 400, "No key provided"⟩))
    ∧ ((dispatcher ⟨[⟨[], none⟩]⟩ 0 (.ok 0) "/v1/provisioning/:deviceId"
          (fun _ => .str "d1") (some []) .null .null .null
          (fun _ _ => CallOutcome.syncThrow ⟨some 400, "No key provided"⟩)
          false 30000).2
        = .responded ⟨400, errorBody "No key provided"⟩) := by
  constructor
  · rfl
  · exact (claim_c2_catch_scope ⟨[⟨[], none⟩]⟩ 0 0 "/v1/provisioning/:deviceId"
      (fun _ => .str "d1") [] .null .null .null
      (fun _ _ => CallOutcome.syncThrow ⟨some 400, "No key provided"⟩)
      false 30000).2.1 ⟨some 400, "No key provided"⟩ rfl

/-- C2 counterexample: a failure in a step the claim covers — here the
container resolution of dispatcher step 2 throwing — is not caught: it
escapes the dispatcher and no response carrying the error JSON is written,
because the try block only begins after resolution, field attachment and
body destructuring. -/
theorem claim_c2_counterexample :
    (dispatcher ⟨[⟨[], none⟩]⟩ 0
        (.error ⟨none, "container resolution failed"⟩) "/v1/users"
        (fun _ => .null) (some []) .null .null .null
        (fun _ _ => .sync none) false 30000).2
      = .escaped ⟨none, "container resolution failed"⟩
    ∧ (dispatcher ⟨[⟨[], none⟩]⟩ 0
        (.error ⟨none, "container resolution failed"⟩) "/v1/users"
        (fun _ => .null) (some []) .null .null .null
        (fun _ _ => .sync none) false 30000).2.isResponded = false :=
  ⟨rfl, rfl⟩

/-- C3: at the failing input — a server-sent-events route whose controller
method returns a deferred computation still pending when the race is entered
(settling at time 1 with a proper status/data result) — the dispatcher does
not wait for the result: `Promise.race([functionResult, null])` fulfills with
the non-promise operand `null` at once, `nullthrows` throws, and an error
response is written immediately instead of the result's status and data. -/
theorem claim_c3_sse_result_never_awaited :
    (dispatcher ⟨[⟨[], none⟩]⟩ 0 (.ok 0) "/v1/events" (fun _ => .null)
        (some []) .null .null .null
        (fun _ _ => .thenable ⟨some (1, Settle.resolve
          (some ⟨200, .str "eventData"⟩))⟩) true 30000).2
      = .responded ⟨500, errorBody nullthrowsMessage⟩
    ∧ (dispatcher ⟨[⟨[], none⟩]⟩ 0 (.ok 0) "/v1/events" (fun _ => .null)
        (some []) .null .null .null
        (fun _ _ => .thenable ⟨some (1, Settle.resolve
          (some ⟨200, .str "eventData"⟩))⟩) true 30000).2.statusSent
      ≠ some 200 := by
  constructor
  · rfl
  · decide

/-- C4: on a non-SSE route whose deferred computation does not settle before
the configured timeout (or never settles), the timer wins the race and the
dispatcher responds with the non-2xx status 500 and a JSON body whose `ok`
field is false; when instead the computation resolves before the timer
fires, its status/data value is used for the success response. -/
theorem claim_c4_timeout_failure_response (h : Heap) (sharedA a : Addr)
    (route : String) (params : String → Val) (b : List (String × Val))
    (req resp usr : Val) (method : Addr → List Val → CallOutcome)
    (d : Deferred) (apiTimeout : Nat)
    (hm : method (prepareInstance h a sharedA req resp usr).2
      (callArguments route params b) = .thenable d) :
    (d.settle = none →
      (dispatcher h sharedA (.ok a) route params (some b) req resp usr method
          false apiTimeout).2
        = .responded ⟨500, errorBody "timeout"⟩)
    ∧ (∀ t s, d.settle = some (t, s) → ¬(t = 0 ∨ t < apiTimeout) →
      (dispatcher h sharedA (.ok a) route params (some b) req resp usr method
          false apiTimeout).2
        = .responded ⟨500, errorBody "timeout"⟩)
    ∧ (299 < (500 : Nat))
    ∧ ((errorBody "timeout").objLookup "ok" = some (.bool false))
    ∧ (∀ t r, d.settle = some (t, Settle.resolve (some r)) →
        t < apiTimeout →
      (dispatcher h sharedA (.ok a) route params (some b) req resp usr method
          false apiTimeout).2
        = .responded ⟨r.status, r.data⟩) := by
  refine ⟨?_, ?_, by decide, rfl, ?_⟩
  · intro hd
    simp [dispatcher, tryBlock, hm, promiseRace, hd, catchWith,
      HttpError.ofError, timeoutError]
  · intro t s hd hlate
    simp [dispatcher, tryBlock, hm, promiseRace, hd, hlate, catchWith,
      HttpError.ofError, timeoutError]
  · intro t r hd hearly
    simp [dispatcher, tryBlock, hm, promiseRace, hd, Or.inr hearly]

theorem claim_c4_timeout_failure_response_witness :
    ((fun (_ : Addr) (_ : List Val) =>
        CallOutcome.thenable ⟨some (60000, Settle.resolve
          (some ⟨200, .str "late"⟩))⟩) =
      (fun (_ : Addr) (_ : List Val) =>
        CallOutcome.thenable ⟨some (60000, Settle.resolve
          (some ⟨200, .str "late"⟩))⟩))
    ∧ (dispatcher ⟨[⟨[], none⟩]⟩ 0 (.ok 0) "/v1/devices" (fun _ => .null)
        (some []) .null .null .null
        (fun _ _ => CallOutcome.thenable ⟨some (60000, Settle.resolve
          (some ⟨200, .str "late"⟩))⟩) false 30000).2
      = .responded ⟨500, errorBody "timeout"⟩ := by
  constructor
  · rfl
  · exact (claim_c4_timeout_failure_response ⟨[⟨[], none⟩]⟩ 0 0 "/v1/devices"
      (fun _ => .null) [] .null .null .null
      (fun _ _ => CallOutcome.thenable ⟨some (60000, Settle.resolve
        (some ⟨200, .str "late"⟩))⟩)
      ⟨some (60000, Settle.resolve (some ⟨200, .str "late"⟩))⟩ 30000
      rfl).2.1 60000 _ rfl (by decide)

/-- C5: a successful non-SSE dispatch writes exactly the controller result's
status and data — whether the method returned the status/data record
synchronously or as a deferred computation that resolves before the timer
fires. -/
theorem claim_c5_round_trip (h : Heap) (sharedA a : Addr) (route : String)
    (params : String → Val) (b : List (String × Val)) (req resp usr : Val)
    (method : Addr → List Val → CallOutcome) (apiTimeout : Nat)
    (r : ControllerResult) :
    (method (prepareInstance h a sharedA req resp usr).2
        (callArguments route params b) = .sync (some r) →
      (dispatcher h sharedA (.ok a) route params (some b) req resp usr method
          false apiTimeout).2
        = .responded ⟨r.status, r.data⟩)
    ∧ (∀ d t, method (prepareInstance h a sharedA req resp usr).2
          (callArguments route params b) = .thenable d →
        d.settle = some (t, Settle.resolve (some r)) → t < apiTimeout →
      (dispatcher h sharedA (.ok a) route params (some b) req resp usr method
          false apiTimeout).2
        = .responded ⟨r.status, r.data⟩) := by
  constructor
  · intro hm
    simp [dispatcher, tryBlock, hm]
  · intro d t hm hd hearly
    simp [dispatcher, tryBlock, hm, promiseRace, hd, Or.inr hearly]

theorem claim_c5_round_trip_witness :
    ((fun (_ : Addr) (_ : List Val) =>
        CallOutcome.sync (some ⟨201, .obj [("id", .num 7)]⟩)) =
      (fun (_ : Addr) (_ : List Val) =>
        CallOutcome.sync (some ⟨201, .obj [("id", .num 7)]⟩)))
    ∧ (dispatcher ⟨[⟨[], none⟩]⟩ 0 (.ok 0) "/v1/users" (fun _ => .null)
        (some []) .null .null .null
        (fun _ _ => CallOutcome.sync (some ⟨201, .obj [("id", .num 7)]⟩))
        false 30000).2
      = .responded ⟨201, .obj [("id", .num 7)]⟩ := by
  constructor
  · rfl
  · exact (claim_c5_round_trip ⟨[⟨[], none⟩]⟩ 0 0 "/v1/users"
      (fun _ => .null) [] .null .null .null
      (fun _ _ => CallOutcome.sync (some ⟨201, .obj [("id", .num 7)]⟩))
      30000 ⟨201, .obj [("id", .num 7)]⟩).1 rfl

theorem lookup_filter_self (k : String) (b : List (String × Val)) :
    (b.filter (fun p => p.1 != k)).lookup k = none := by
  induction b with
  | nil => rfl
  | cons p t ih =>
      by_cases hp : p.1 = k
      · have hb : (p.1 != k) = false := by simp [hp]
        simp [List.filter_cons, hb, ih]
      · have hb : (p.1 != k) = true := by simp [hp]
        have hk : (k == p.1) = false :=
          beq_eq_false_iff_ne.mpr (fun hEq => hp hEq.symm)
        simp [List.filter_cons, hb, List.lookup, hk, ih]

theorem lookup_filter_other (k k2 : String) (hk : k2 ≠ k)
    (b : List (String × Val)) :
    (b.filter (fun p => p.1 != k)).lookup k2 = b.lookup k2 := by
  induction b with
  | nil => rfl
  | cons p t ih =>
      by_cases hp : p.1 = k
      · have hb : (p.1 != k) = false := by simp [hp]
        have hk2 : (k2 == p.1) = false := by
          rw [hp]; exact beq_eq_false_iff_ne.mpr hk
        simp [List.filter_cons, hb, List.lookup, hk2, ih]
      · have hb : (p.1 != k) = true := by simp [hp]
        by_cases hq : k2 = p.1
        · simp [List.filter_cons, hb, List.lookup, hq]
        · have hk2 : (k2 == p.1) = false := beq_eq_false_iff_ne.mpr hq
          simp [List.filter_cons, hb, List.lookup, hk2, ih]

/-- C6: the controller method is invoked with one positional argument per
named parameter of the route pattern, in pattern order, holding the resolved
parameter value, followed by one final argument: the request body with the
`access_token` field removed and every other field unchanged.  The last
conjunct observes the invocation through the dispatcher with a method that
echoes its arguments. -/
theorem claim_c6_positional_arguments (route : String) (params : String → Val)
    (b : List (String × Val)) (h : Heap) (sharedA a : Addr)
    (req resp usr : Val) (apiTimeout : Nat) :
    ((callArguments route params b).length
      = (routeParamNames route).length + 1)
    ∧ (∀ i, i < (routeParamNames route).length →
        (callArguments route params b)[i]?
          = some (params ((routeParamNames route).getD i "")))
    ∧ ((callArguments route params b).getLast?
        = some (.obj (stripAccessToken b)))
    ∧ ((stripAccessToken b).lookup "access_token" = none)
    ∧ (∀ k, k ≠ "access_token" →
        (stripAccessToken b).lookup k = b.lookup k)
    ∧ (routeParamNames "/v1/provisioning/:deviceId/:keyId"
        = ["deviceId", "keyId"])
    ∧ ((dispatcher h sharedA (.ok a) route params (some b) req resp usr
          (fun _ args => .sync (some ⟨200, .arr args⟩)) false apiTimeout).2
        = .responded ⟨200, .arr ((routeParamNames route).map params
            ++ [.obj (stripAccessToken b)])⟩) := by
  refine ⟨?_, ?_, ?_, lookup_filter_self "access_token" b,
    fun k hk => lookup_filter_other "access_token" k hk b, ?_, ?_⟩
  · simp [callArguments]
  · intro i hi
    have hi2 : i < ((routeParamNames route).map params).length := by
      simpa using hi
    rw [callArguments, List.getElem?_append, if_pos hi2, List.getElem?_map]
    rw [List.getElem?_eq_getElem hi]
    rw [List.getD_eq_getElem _ _ hi]
    rfl
  · rw [callArguments, List.getLast?_concat]
  · rfl
  · simp [dispatcher, tryBlock, callArguments]

theorem claim_c6_positional_arguments_witness :
    (0 < (routeParamNames "/v1/provisioning/:deviceId/:keyId").length)
    ∧ ((callArguments "/v1/provisioning/:deviceId/:keyId"
          (fun n => .str n) [("publicKey", .str "pk"),
            ("access_token", .str "tok")])[0]?
        = some (.str "deviceId"))
    ∧ ((stripAccessToken [("publicKey", .str "pk"),
          ("access_token", .str "tok")]).lookup "access_token" = none)
    ∧ ("publicKey" ≠ "access_token")
    ∧ ((stripAccessToken [("publicKey", .str "pk"),
          ("access_token", .str "tok")]).lookup "publicKey"
        = [("publicKey", .str "pk"),
            ("access_token", .str "tok")].lookup "publicKey") := by
  refine ⟨by decide, ?_, ?_, by decide, ?_⟩
  · have := (claim_c6_positional_arguments "/v1/provisioning/:deviceId/:keyId"
      (fun n => .str n) [("publicKey", .str "pk"), ("access_token", .str "tok")]
      ⟨[⟨[], none⟩]⟩ 0 0 .null .null .null 30000).2.1 0 (by decide)
    simpa using this
  · exact (claim_c6_positional_arguments "/v1/provisioning/:deviceId/:keyId"
      (fun n => .str n) [("publicKey", .str "pk"), ("access_token", .str "tok")]
      ⟨[⟨[], none⟩]⟩ 0 0 .null .null .null 30000).2.2.2.1
  · exact (claim_c6_positional_arguments "/v1/provisioning/:deviceId/:keyId"
      (fun n => .str n) [("publicKey", .str "pk"), ("access_token", .str "tok")]
      ⟨[⟨[], none⟩]⟩ 0 0 .null .null .null 30000).2.2.2.2.1 "publicKey"
      (by decide)

/-- C7: the auth stage is active exactly when the method's `anonymous` flag is
not true — with `anonymous` true the conditional wrapper passes straight
through to the next stage without invoking the auth middleware, and with
`anonymous` false every request goes through the auth capability first, so a
halt there (an invalid bearer token) stops the chain before the terminal
dispatcher and the controller method can run. -/
theorem claim_c7_auth_stage_gating (σ ρ : Type)
    (authenticate sseMiddleware injectUser uploadStage terminal :
      σ → MWStep σ ρ) (sse uploads : Bool) (s : σ) :
    (maybe authenticate (!true) s = .next s)
    ∧ (runChain (routeHandlerChain authenticate sseMiddleware injectUser
          uploadStage terminal true sse uploads) s
        = runChain [maybe sseMiddleware sse, injectUser,
            maybe uploadStage uploads, terminal] s)
    ∧ (maybe authenticate (!false) s = authenticate s)
    ∧ (∀ r, authenticate s = .halt r →
        runChain (routeHandlerChain authenticate sseMiddleware injectUser
          uploadStage terminal false sse uploads) s = .halt r) := by
  refine ⟨rfl, rfl, rfl, ?_⟩
  intro r hr
  simp [routeHandlerChain, runChain, maybe, hr]

theorem claim_c7_auth_stage_gating_witness :
    ((fun (_ : Nat) => (MWStep.halt 401 : MWStep Nat Nat)) 0
      = MWStep.halt 401)
    ∧ (runChain (routeHandlerChain (fun (_ : Nat) =>
          (MWStep.halt 401 : MWStep Nat Nat))
          (fun s => .next s) (fun s => .next s) (fun s => .next s)
          (fun _ => .halt 200) false false false) 0
        = MWStep.halt 401) :=
  ⟨rfl, (claim_c7_auth_stage_gating Nat Nat
    (fun _ => MWStep.halt 401) (fun s => .next s) (fun s => .next s)
    (fun s => .next s) (fun _ => .halt 200) false false 0).2.2.2 401 rfl⟩

/-- C8 counterexample: an unmatched request is answered by
`response.sendStatus(404)`, whose body is the registered status message
"Not Found" — not an empty body as the claim states. -/
theorem claim_c8_counterexample :
    appRespond [] (fun _ => ⟨200, ""⟩) "get" "/no/such/route"
      = ⟨404, "Not Found"⟩
    ∧ (appRespond [] (fun _ => ⟨200, ""⟩) "get" "/no/such/route").body
      ≠ "" := by
  exact ⟨rfl, by decide⟩

/-- C8 (amended): a request whose method and path match no registered binding
falls through to the catch-all and is answered with status 404 and the
status-message text "Not Found" as its body (no JSON payload). -/
theorem claim_c8_unmatched_404 (bindings : List Binding)
    (handle : Binding → RawResponse) (verb path : String)
    (hnone : ∀ b ∈ bindings, requestMatches b verb path = false) :
    appRespond bindings handle verb path = ⟨404, "Not Found"⟩ := by
  unfold appRespond
  rw [List.find?_eq_none.mpr (fun b hb => by simp [hnone b hb])]
  rfl

theorem claim_c8_unmatched_404_witness :
    (∀ b ∈ [Binding.mk "post" "/v1/users"],
      requestMatches b "get" "/nope" = false)
    ∧ appRespond [Binding.mk "post" "/v1/users"] (fun _ => ⟨200, "ok"⟩)
        "get" "/nope" = ⟨404, "Not Found"⟩ :=
  ⟨by decide, claim_c8_unmatched_404 [Binding.mk "post" "/v1/users"]
    (fun _ => ⟨200, "ok"⟩) "get" "/nope" (by decide)⟩

/-- C10: for a routable method the upload middleware factory runs eagerly at
startup (its result is an argument of the route registration), so a null
`allowedUploads` makes binding throw via the `nullthrows` guard even though
the stage's activation condition is false for null; an undefined
`allowedUploads` takes the default empty spec and binds the generic parser
with the stage inactive; a method without an `httpVerb` annotation is skipped
and never evaluates the factory. -/
theorem claim_c10_eager_upload_factory :
    (filesMiddleware .null = .error nullthrowsMessage)
    ∧ (jsTruthy .null = false)
    ∧ (bindUploadStage .null = .error nullthrowsMessage)
    ∧ (scanMethodUploadStage (some "post") .null
        = .error nullthrowsMessage)
    ∧ (scanMethodUploadStage none .null = .ok none)
    ∧ (filesMiddleware .undefined = .ok .any)
    ∧ (bindUploadStage .undefined = .ok (.any, false))
    ∧ (∀ l : List UploadField, l ≠ [] →
        bindUploadStage (.val l) = .ok (.fields l, true)) := by
  refine ⟨rfl, rfl, rfl, rfl, rfl, rfl, rfl, ?_⟩
  intro l hl
  have hlen : l.length ≠ 0 := by simpa [List.length_eq_zero] using hl
  simp [bindUploadStage, filesMiddleware, jsTruthy, hlen]

theorem claim_c10_eager_upload_factory_witness :
    (([⟨"file", 1⟩] : List UploadField) ≠ [])
    ∧ (filesMiddleware .null = .error nullthrowsMessage)
    ∧ (bindUploadStage (.val [⟨"file", 1⟩])
        = .ok (.fields [⟨"file", 1⟩], true)) :=
  ⟨by decide, claim_c10_eager_upload_factory.1,
    claim_c10_eager_upload_factory.2.2.2.2.2.2.2 [⟨"file", 1⟩] (by decide)⟩

end SparkServer
